import Mathlib

/-!
Verification development for the mini-video-editor repository: a thin
wrapper around an external media tool (ffmpeg).  The Python front ends are
shallowly embedded as pure Lean functions over explicit environments: the
child process exit code, the text on its error stream, and whether files
exist on disk are inputs; the operations return the external effects they
perform (directory creation, probe invocations, tool launches), a success
flag, and the error-text slices shown to the user.  Filesystem paths are
modelled as their component lists; floating point durations are modelled as
exact rationals carried through the same arithmetic the source performs.
-/

namespace MiniVideo

/-- One argument of an external command line.  `lit` is a literal string
taken verbatim from the source or user input; `num` is a numeric value the
source renders with Python str() (exact rational in this model); `path`
is a filesystem path rendered from its components. -/
inductive Arg where
  | lit (s : String)
  | num (q : ℚ)
  | path (c : List String)
deriving DecidableEq

/-- An argument vector for the external tool. -/
abbrev Cmd := List Arg

/-- External effects an operation performs, in order: creating a directory,
invoking the companion probing tool, or launching the media tool itself. -/
inductive Effect where
  | mkdir (d : List String)
  | probe (c : Cmd)
  | launch (c : Cmd)
deriving DecidableEq

/-- The media-tool launches contained in an effect trace. -/
def launches (es : List Effect) : List Cmd :=
  es.filterMap fun e =>
    match e with
    | .launch c => some c
    | .mkdir _ => none
    | .probe _ => none

/-- A selected input file, as Python pathlib sees it: parent directory
components, stem, and suffix (the suffix is empty or starts with a dot). -/
structure InPath where
  par : List String
  stem : String
  suffix : String
deriving DecidableEq

/-- The shape pathlib guarantees for a suffix: empty, or dot-initial. -/
def pySuffixOk (s : String) : Bool :=
  s.data.isEmpty || s.data.head? == some '.'

/-- Full component path of the selected input file. -/
def inputPathOf (p : InPath) : List String :=
  p.par ++ [p.stem ++ p.suffix]

/-- Output path of the convert operation: sibling stem_converted.fmt file. -/
def convertedOut (p : InPath) (fmt : String) : List String :=
  p.par ++ [p.stem ++ "_converted." ++ fmt]

/-- Output path of the extract-audio operation. -/
def audioOut (p : InPath) : List String :=
  p.par ++ [p.stem ++ "_audio.mp3"]

/-- Output path of the compress operation. -/
def compressedOut (p : InPath) : List String :=
  p.par ++ [p.stem ++ "_compressed.mp4"]

/-- Output path of the cut/trim operation. -/
def cutOut (p : InPath) : List String :=
  p.par ++ [p.stem ++ "_cut.mp4"]

/-- Output path of the repair operation. -/
def fixedOut (p : InPath) : List String :=
  p.par ++ [p.stem ++ "_fixed.mp4"]

/-- Sibling directory the split operation writes into. -/
def splitDir (p : InPath) : List String :=
  p.par ++ [p.stem ++ "_split"]

/-- Output file pattern of the split operation, inside the split directory. -/
def splitPat (p : InPath) : List String :=
  splitDir p ++ [p.stem ++ "_part%03d.mp4"]

/-- Python str.isdigit on the ASCII digit strings the prompts accept. -/
def pyIsDigit (s : String) : Bool :=
  !s.data.isEmpty && s.data.all Char.isDigit

/-- Python int() applied to a digit string. -/
def pyToNat (s : String) : ℕ :=
  s.data.foldl (fun n c => 10 * n + (c.toNat - 48)) 0

/-- Python slice s[:n]. -/
def pyTake (s : String) (n : ℕ) : String :=
  ⟨s.data.take n⟩

/-- Python slice s[-n:] for positive n. -/
def pyTail (s : String) (n : ℕ) : String :=
  ⟨s.data.drop (s.data.length - n)⟩

/-- Environment of one child-process run: its exit code, the text it wrote
to its error stream, and whether the expected output file exists on disk
after the run. -/
structure Env where
  exitCode : Int
  errText : String
  outExists : Bool
deriving DecidableEq

/-- Observable outcome of one wrapper operation: the reported success flag,
the ordered external effects, and the error-text slices displayed. -/
structure OpResult where
  ok : Bool
  effects : List Effect
  shown : List String
deriving DecidableEq

namespace CliMain

/-- Command built by convert_file in src/main.py. -/
def convertCmd (ff : String) (p : InPath) (fmt : String) : Cmd :=
  [.lit ff, .lit "-i", .path (inputPathOf p), .lit "-y",
   .lit "-progress", .lit "pipe:1", .path (convertedOut p fmt)]

/-- convert_file in src/main.py: launches the tool, then branches on the
exit code; on zero exit it additionally checks that the output file was
created, and on non-zero exit it shows the last 500 characters of the
error stream when that stream is nonempty. -/
def convert_file (ff : String) (p : InPath) (fmt : String) (env : Env) : OpResult :=
  let cmd := convertCmd ff p fmt
  if env.exitCode = 0 then
    if env.outExists then ⟨true, [.launch cmd], []⟩
    else ⟨false, [.launch cmd], []⟩
  else
    ⟨false, [.launch cmd], if env.errText = "" then [] else [pyTail env.errText 500]⟩

/-- Command built by extract_audio in src/main.py. -/
def extractCmd (ff : String) (p : InPath) : Cmd :=
  [.lit ff, .lit "-i", .path (inputPathOf p), .lit "-vn",
   .lit "-acodec", .lit "libmp3lame", .lit "-ab", .lit "192k", .lit "-y",
   .lit "-progress", .lit "pipe:1", .path (audioOut p)]

/-- extract_audio in src/main.py; same result handling as convert_file. -/
def extract_audio (ff : String) (p : InPath) (env : Env) : OpResult :=
  let cmd := extractCmd ff p
  if env.exitCode = 0 then
    if env.outExists then ⟨true, [.launch cmd], []⟩
    else ⟨false, [.launch cmd], []⟩
  else
    ⟨false, [.launch cmd], if env.errText = "" then [] else [pyTail env.errText 500]⟩

/-- Command built by compress_video in src/main.py. -/
def compressCmd (ff : String) (p : InPath) : Cmd :=
  [.lit ff, .lit "-i", .path (inputPathOf p), .lit "-vcodec", .lit "libx264",
   .lit "-crf", .lit "28", .lit "-y", .path (compressedOut p)]

/-- compress_video in src/main.py.  On zero exit the success branch reads
the output file size, which raises into the exception handler when the
file is absent, so success additionally requires the output to exist; on
non-zero exit the first 500 characters of the error stream are shown. -/
def compress_video (ff : String) (p : InPath) (env : Env) : OpResult :=
  let cmd := compressCmd ff p
  if env.exitCode = 0 then
    if env.outExists then ⟨true, [.launch cmd], []⟩
    else ⟨false, [.launch cmd], []⟩
  else
    ⟨false, [.launch cmd], [pyTake env.errText 500]⟩

/-- Command built by cut_video in src/main.py. -/
def cutCmd (ff : String) (p : InPath) (startT durT : String) : Cmd :=
  [.lit ff, .lit "-i", .path (inputPathOf p), .lit "-ss", .lit startT,
   .lit "-t", .lit durT, .lit "-c", .lit "copy", .lit "-y", .path (cutOut p)]

/-- cut_video in src/main.py: empty start or duration is rejected before
any launch; afterwards the result handling matches compress_video. -/
def cut_video (ff : String) (p : InPath) (startT durT : String) (env : Env) : OpResult :=
  if startT = "" ∨ durT = "" then ⟨false, [], []⟩
  else
    let cmd := cutCmd ff p startT durT
    if env.exitCode = 0 then
      if env.outExists then ⟨true, [.launch cmd], []⟩
      else ⟨false, [.launch cmd], []⟩
    else
      ⟨false, [.launch cmd], [pyTake env.errText 500]⟩

/-- Environment of the interactive split operation: the media-tool run and
the duration probe.  probeDur is the rational value parsed from the probe
output when the probe exits zero. -/
structure SplitEnv where
  exitCode : Int
  errText : String
  probeExit : Int
  probeDur : ℚ
deriving DecidableEq

/-- ffprobe duration command built inside split_video in src/main.py; the
probe binary name is the media-tool path with ffmpeg replaced by ffprobe. -/
def probeCmd (ff : String) (p : InPath) : Cmd :=
  [.lit (ff.replace "ffmpeg" "ffprobe"), .lit "-v", .lit "error",
   .lit "-show_entries", .lit "format=duration",
   .lit "-of", .lit "default=noprint_wrappers=1:nokey=1",
   .path (inputPathOf p)]

/-- Segment-time split command built in src/main.py (choices 1 and 3); the
segment-time argument is a user string for choice 1 and a str()-rendered
number for choice 3. -/
def splitTimeCmd (ff : String) (p : InPath) (seg : Arg) : Cmd :=
  [.lit ff, .lit "-i", .path (inputPathOf p), .lit "-c", .lit "copy",
   .lit "-map", .lit "0", .lit "-segment_time", seg, .lit "-f", .lit "segment",
   .lit "-reset_timestamps", .lit "1", .lit "-progress", .lit "pipe:1",
   .path (splitPat p)]

/-- Segment-size split command built in src/main.py (choice 2); the byte
count is an integer rendered with str(). -/
def splitSizeCmd (ff : String) (p : InPath) (bytes : ℕ) : Cmd :=
  [.lit ff, .lit "-i", .path (inputPathOf p), .lit "-c", .lit "copy",
   .lit "-map", .lit "0", .lit "-f", .lit "segment",
   .lit "-segment_size", .num (bytes : ℚ), .lit "-reset_timestamps", .lit "1",
   .lit "-progress", .lit "pipe:1", .path (splitPat p)]

/-- split_video in src/main.py.  After the method choice is read, the
output directory is created unconditionally; validation of the choice and
of the entered parameter happens afterwards.  Choice 1 rejects only an
empty duration; choice 2 requires a digit string; choice 3 requires a
digit string of value at least 2, then probes the total duration and
divides it by the part count.  On a non-zero media-tool exit the code
reads a stderr attribute that the fabricated result object lacks, so the
exception handler runs and no error-stream slice is displayed. -/
def split_video (ff : String) (p : InPath) (choice param : String)
    (env : SplitEnv) : OpResult :=
  let md := Effect.mkdir (splitDir p)
  if choice = "1" then
    if param = "" then ⟨false, [md], []⟩
    else
      let cmd := splitTimeCmd ff p (.lit param)
      if env.exitCode = 0 then ⟨true, [md, .launch cmd], []⟩
      else ⟨false, [md, .launch cmd], []⟩
  else if choice = "2" then
    if param = "" ∨ ¬ pyIsDigit param then ⟨false, [md], []⟩
    else
      let cmd := splitSizeCmd ff p (pyToNat param * 1024 * 1024)
      if env.exitCode = 0 then ⟨true, [md, .launch cmd], []⟩
      else ⟨false, [md, .launch cmd], []⟩
  else if choice = "3" then
    if param = "" ∨ ¬ pyIsDigit param ∨ pyToNat param < 2 then ⟨false, [md], []⟩
    else if env.probeExit ≠ 0 then ⟨false, [md, .probe (probeCmd ff p)], []⟩
    else
      let segDur := env.probeDur / (pyToNat param : ℚ)
      let cmd := splitTimeCmd ff p (.num segDur)
      if env.exitCode = 0 then ⟨true, [md, .probe (probeCmd ff p), .launch cmd], []⟩
      else ⟨false, [md, .probe (probeCmd ff p), .launch cmd], []⟩
  else ⟨false, [md], []⟩

/-- Environment of the repair operation: one run for the stream-copy
attempt and one for the re-encoding fallback. -/
structure RepairEnv where
  exit1 : Int
  err1 : String
  out1Exists : Bool
  exit2 : Int
  err2 : String
  out2Exists : Bool
deriving DecidableEq

/-- First repair command in fix_broken_video: stream copy. -/
def repairCopyCmd (ff : String) (p : InPath) : Cmd :=
  [.lit ff, .lit "-i", .path (inputPathOf p), .lit "-c", .lit "copy",
   .lit "-map", .lit "0", .lit "-ignore_errors", .lit "-y",
   .lit "-progress", .lit "pipe:1", .path (fixedOut p)]

/-- Fallback repair command in try_alternative_repair: re-encode video with
libx264 and audio with aac, targeting the same output path. -/
def repairReencodeCmd (ff : String) (p : InPath) : Cmd :=
  [.lit ff, .lit "-i", .path (inputPathOf p), .lit "-c:v", .lit "libx264",
   .lit "-c:a", .lit "aac", .lit "-crf", .lit "23", .lit "-preset", .lit "fast",
   .lit "-ignore_errors", .lit "-y", .lit "-progress", .lit "pipe:1",
   .path (fixedOut p)]

/-- try_alternative_repair in src/main.py: one re-encoding launch; success
requires a zero exit and an existing output file. -/
def try_alternative_repair (ff : String) (p : InPath) (env : RepairEnv) : OpResult :=
  let cmd := repairReencodeCmd ff p
  if env.exit2 = 0 ∧ env.out2Exists then ⟨true, [.launch cmd], []⟩
  else
    ⟨false, [.launch cmd], if env.err2 = "" then [] else [pyTail env.err2 500]⟩

/-- fix_broken_video in src/main.py: stream-copy attempt first; on zero
exit the output existence is checked; on non-zero exit the error tail is
shown and try_alternative_repair is invoked once. -/
def fix_broken_video (ff : String) (p : InPath) (env : RepairEnv) : OpResult :=
  let cmd := repairCopyCmd ff p
  if env.exit1 = 0 then
    if env.out1Exists then ⟨true, [.launch cmd], []⟩
    else ⟨false, [.launch cmd], []⟩
  else
    let fb := try_alternative_repair ff p env
    { ok := fb.ok
      effects := .launch cmd :: fb.effects
      shown := (if env.err1 = "" then [] else [pyTail env.err1 500]) ++ fb.shown }

end CliMain

namespace Mini

/-- Outcome of run_ffmpeg in mini_ffmpeg.py: normal return after a success
message, or whole-program termination with the given status. -/
inductive RunOutcome where
  | done
  | exitWith (code : Int)
deriving DecidableEq

/-- run_ffmpeg in mini_ffmpeg.py branches only on the child exit code:
zero prints a success message and returns; anything else terminates the
program with that code. -/
def run_ffmpeg (code : Int) : RunOutcome :=
  if code = 0 then .done else .exitWith code

/-- Result of one mini_ffmpeg subcommand: the external effects and how the
process ended (normal return, or sys.exit with a status). -/
structure MiniResult where
  effects : List Effect
  exited : Option Int
deriving DecidableEq

/-- Applies run_ffmpeg to a built command: the launch happens, then the
process either returns normally or exits with the child code. -/
def runStep (cmd : Cmd) (code : Int) : MiniResult :=
  match run_ffmpeg code with
  | .done => ⟨[.launch cmd], none⟩
  | .exitWith c => ⟨[.launch cmd], some c⟩

/-- Command built by convert in mini_ffmpeg.py. -/
def convertCmd (ff inputFile outputFile vcodec acodec : String) : Cmd :=
  [.lit ff, .lit "-y", .lit "-i", .lit inputFile,
   .lit "-c:v", .lit vcodec, .lit "-c:a", .lit acodec, .lit outputFile]

/-- convert in mini_ffmpeg.py.  find_ffmpeg exits with status 1 when the
tool is absent from PATH; otherwise the command runs.  The function never
consults the filesystem about the input path, so inExists is an unused
environment input recording whether the input file exists. -/
def convert (ffOnPath : Option String) (inExists : Bool)
    (inputFile outputFile vcodec acodec : String) (code : Int) : MiniResult :=
  match ffOnPath with
  | none => ⟨[], some 1⟩
  | some ff => runStep (convertCmd ff inputFile outputFile vcodec acodec) code

/-- Command built by trim in mini_ffmpeg.py. -/
def trimCmd (ff inputFile outputFile start dur : String) (copy : Bool) : Cmd :=
  [.lit ff, .lit "-y", .lit "-ss", .lit start, .lit "-t", .lit dur,
   .lit "-i", .lit inputFile]
  ++ (if copy then [.lit "-c", .lit "copy"] else [])
  ++ [.lit outputFile]

/-- trim in mini_ffmpeg.py; no filesystem check on the input path. -/
def trim (ffOnPath : Option String) (inExists : Bool)
    (inputFile outputFile start dur : String) (copy : Bool) (code : Int) : MiniResult :=
  match ffOnPath with
  | none => ⟨[], some 1⟩
  | some ff => runStep (trimCmd ff inputFile outputFile start dur copy) code

/-- Command built by extract_audio in mini_ffmpeg.py. -/
def extractCmd (ff inputFile outputFile bitrate : String) : Cmd :=
  [.lit ff, .lit "-y", .lit "-i", .lit inputFile, .lit "-vn",
   .lit "-acodec", .lit "mp3", .lit "-b:a", .lit bitrate, .lit outputFile]

/-- extract_audio in mini_ffmpeg.py; no filesystem check on the input. -/
def extract_audio (ffOnPath : Option String) (inExists : Bool)
    (inputFile outputFile bitrate : String) (code : Int) : MiniResult :=
  match ffOnPath with
  | none => ⟨[], some 1⟩
  | some ff => runStep (extractCmd ff inputFile outputFile bitrate) code

/-- Command built by split_video in mini_ffmpeg.py; the segment time is an
argparse integer rendered with str(). -/
def splitCmd (ff inputFile outPattern : String) (segTime : ℤ) : Cmd :=
  [.lit ff, .lit "-y", .lit "-i", .lit inputFile, .lit "-c", .lit "copy",
   .lit "-map", .lit "0", .lit "-f", .lit "segment",
   .lit "-segment_time", .num (segTime : ℚ), .lit "-reset_timestamps", .lit "1",
   .lit outPattern]

/-- split_video in mini_ffmpeg.py; no filesystem check on the input. -/
def split_video (ffOnPath : Option String) (inExists : Bool)
    (inputFile outPattern : String) (segTime : ℤ) (code : Int) : MiniResult :=
  match ffOnPath with
  | none => ⟨[], some 1⟩
  | some ff => runStep (splitCmd ff inputFile outPattern segTime) code

end Mini

namespace Gui

/-- run_ffmpeg_command in ffmpeg_app.py: refuses to launch when the tool
was not detected or no file is selected; otherwise launches once and
branches on the exit code, showing the first 500 characters of the error
text (or a placeholder when it is empty) on failure. -/
def run_ffmpeg_command (ffAvailable fileSelected : Bool) (cmd : Cmd)
    (env : Env) : OpResult :=
  if ¬ ffAvailable then ⟨false, [], []⟩
  else if ¬ fileSelected then ⟨false, [], []⟩
  else if env.exitCode = 0 then ⟨true, [.launch cmd], []⟩
  else
    ⟨false, [.launch cmd],
     [pyTake (if env.errText = "" then "Unknown error" else env.errText) 500]⟩

/-- Convert command built in ffmpeg_app.py. -/
def convertCmd (ff : String) (p : InPath) (fmt : String) : Cmd :=
  [.lit ff, .lit "-i", .path (inputPathOf p), .lit "-y",
   .path (convertedOut p fmt)]

/-- Extract-audio command built in ffmpeg_app.py. -/
def extractCmd (ff : String) (p : InPath) : Cmd :=
  [.lit ff, .lit "-i", .path (inputPathOf p), .lit "-vn",
   .lit "-acodec", .lit "libmp3lame", .lit "-ab", .lit "192k", .lit "-y",
   .path (audioOut p)]

/-- Compress command built in ffmpeg_app.py. -/
def compressCmd (ff : String) (p : InPath) : Cmd :=
  [.lit ff, .lit "-i", .path (inputPathOf p), .lit "-vcodec", .lit "libx264",
   .lit "-crf", .lit "28", .lit "-y", .path (compressedOut p)]

/-- Cut command built in ffmpeg_app_simple.py. -/
def cutCmd (ff : String) (p : InPath) (start dur : String) : Cmd :=
  [.lit ff, .lit "-i", .path (inputPathOf p), .lit "-ss", .lit start,
   .lit "-t", .lit dur, .lit "-c", .lit "copy", .lit "-y", .path (cutOut p)]

/-- Segment-time split command built in the GUI split dialog. -/
def splitTimeCmd (ff : String) (p : InPath) (seg : Arg) : Cmd :=
  [.lit ff, .lit "-i", .path (inputPathOf p), .lit "-c", .lit "copy",
   .lit "-map", .lit "0", .lit "-segment_time", seg, .lit "-f", .lit "segment",
   .lit "-reset_timestamps", .lit "1", .path (splitPat p)]

/-- Segment-size split command built in the GUI split dialog. -/
def splitSizeCmd (ff : String) (p : InPath) (bytes : ℕ) : Cmd :=
  [.lit ff, .lit "-i", .path (inputPathOf p), .lit "-c", .lit "copy",
   .lit "-map", .lit "0", .lit "-f", .lit "segment",
   .lit "-segment_size", .num (bytes : ℚ), .lit "-reset_timestamps", .lit "1",
   .path (splitPat p)]

/-- load_file in ffmpeg_app.py: the path is cleaned, then the selection is
replaced only when the path exists; otherwise the selection is unchanged. -/
def load_file (cur : Option String) (cleanedPath : String) (existsNow : Bool) :
    Option String :=
  if existsNow then some cleanedPath else cur

end Gui

namespace SplitPy

/-- The split command built in split_video.py (the tool name is the fixed
string ffmpeg there). -/
def splitCmd (p : InPath) (segTime : String) : Cmd :=
  [.lit "ffmpeg", .lit "-i", .path (inputPathOf p), .lit "-c", .lit "copy",
   .lit "-map", .lit "0", .lit "-segment_time", .lit segTime,
   .lit "-f", .lit "segment", .lit "-reset_timestamps", .lit "1",
   .path (splitPat p)]

/-- split_video_by_time in split_video.py: creates the split directory,
launches once, and on failure shows the first 200 characters of the error
text. -/
def split_video_by_time (p : InPath) (segTime : String) (env : Env) : OpResult :=
  let cmd := splitCmd p segTime
  if env.exitCode = 0 then ⟨true, [.mkdir (splitDir p), .launch cmd], []⟩
  else ⟨false, [.mkdir (splitDir p), .launch cmd], [pyTake env.errText 200]⟩

end SplitPy

namespace Session

/-- Strips one character from both ends of a string, as Python strip with
a single-character argument does. -/
def stripChar (c : Char) (s : String) : String :=
  ⟨((s.data.dropWhile fun a => a = c).reverse.dropWhile fun a => a = c).reverse⟩

/-- Strips whitespace from both ends, as Python strip() does. -/
def stripWhite (s : String) : String :=
  ⟨((s.data.dropWhile Char.isWhitespace).reverse.dropWhile Char.isWhitespace).reverse⟩

/-- The single-quote character, written by code point. -/
def squote : Char := Char.ofNat 39

/-- The backslash character, written by code point. -/
def bslash : Char := Char.ofNat 92

/-- Replaces every backslash-space pair by a space, left to right, as the
Python replace of the two-character escape with a space does. -/
def replEscSpace : List Char → List Char
  | [] => []
  | [c] => [c]
  | c :: d :: rest =>
    if c = bslash ∧ d = ' ' then ' ' :: replEscSpace rest
    else c :: replEscSpace (d :: rest)

/-- Cleaning applied to the initial prompt entry in main: strip the input,
strip double then single quotes, strip again, then replace backslash
escaped spaces with plain spaces. -/
def cleanPrompt (s : String) : String :=
  ⟨replEscSpace (stripWhite (stripChar squote (stripChar '"' (stripWhite s)))).data⟩

/-- Cleaning applied to the menu-choice-9 entry in main: strip the input,
then strip double and single quotes. -/
def cleanSelect (s : String) : String :=
  stripChar squote (stripChar '"' (stripWhite s))

/-- The prompt phase of main in src/main.py: an empty cleaned entry or a
nonexistent path ends the process with no selection; otherwise the cleaned
path becomes the selection.  existsNow records whether the cleaned path
exists on disk at that moment. -/
def promptPhase (entry : String) (existsNow : Bool) : Option String :=
  if cleanPrompt entry = "" then none
  else if existsNow then some (cleanPrompt entry) else none

/-- The start of main in src/main.py: a command-line argument becomes the
selection when it exists on disk; otherwise (or with no argument) the
prompt phase runs. -/
def initialLoad (argv1 : Option String) (argvExists : Bool)
    (promptEntry : String) (promptExists : Bool) : Option String :=
  match argv1 with
  | some a => if argvExists then some a else promptPhase promptEntry promptExists
  | none => promptPhase promptEntry promptExists

/-- One iteration of the menu loop as it affects the selection: ordinary
operations leave it untouched; menu choice 9 replaces it with the cleaned
entered path exactly when that path exists at that moment. -/
inductive Event where
  | op (choice : String)
  | selectNew (entry : String) (existsNow : Bool)
deriving DecidableEq

/-- Selection transition of one loop iteration in main. -/
def step (cur : Option String) : Event → Option String
  | .op _ => cur
  | .selectNew entry ex => if ex then some (cleanSelect entry) else cur

/-- Selection after a sequence of loop iterations. -/
def runEvents (cur : Option String) (evs : List Event) : Option String :=
  evs.foldl step cur

end Session

/-- The final (output) argument of a command. -/
def outArg (c : Cmd) : Option Arg :=
  c.reverse.head?

lemma step_some (q : String) (e : Session.Event) :
    ∃ r, Session.step (some q) e = some r := by
  cases e with
  | op choice => exact ⟨q, rfl⟩
  | selectNew entry ex =>
    cases ex with
    | false => exact ⟨q, rfl⟩
    | true => exact ⟨Session.cleanSelect entry, rfl⟩

lemma runEvents_some (evs : List Session.Event) :
    ∀ q, Session.runEvents (some q) evs ≠ none := by
  induction evs with
  | nil => intro q h; exact Option.noConfusion h
  | cons e evs ih =>
    intro q
    obtain ⟨r, hr⟩ := step_some q e
    show Session.runEvents (Session.step (some q) e) evs ≠ none
    rw [hr]
    exact ih r

/-- C7: the mini_ffmpeg process runner treats a non-zero child exit code as
failure and a zero code as success: run_ffmpeg returns normally exactly
when the child exits zero, and otherwise the program terminates with the
child's code as its own exit status. -/
theorem C7_run_ffmpeg_exit_code (c : Int) :
    (Mini.run_ffmpeg c = .done ↔ c = 0) ∧
    (c ≠ 0 → Mini.run_ffmpeg c = .exitWith c) := by
  refine ⟨⟨fun h => ?_, fun h => ?_⟩, fun h => ?_⟩
  · by_contra hc
    simp [Mini.run_ffmpeg, hc] at h
  · simp [Mini.run_ffmpeg, h]
  · simp [Mini.run_ffmpeg, h]

/-- Witness for C7 at the concrete exit code 3. -/
theorem C7_run_ffmpeg_exit_code_w :
    (Mini.run_ffmpeg 3 = .done ↔ (3 : Int) = 0) ∧
    Mini.run_ffmpeg 3 = .exitWith 3 :=
  ⟨(C7_run_ffmpeg_exit_code 3).1, (C7_run_ffmpeg_exit_code 3).2 (by decide)⟩

/-- C5: every operation derives its output as a sibling of the input named
from the input stem plus an operation-specific suffix: the final command
argument is stem_converted.fmt for convert, stem_audio.mp3 for extract,
stem_compressed.mp4 for compress, stem_cut.mp4 for cut, stem_fixed.mp4 for
repair, and for split the pattern stem_part%03d.mp4 inside the sibling
directory stem_split. -/
theorem C5_output_naming (ff fmt startT durT : String) (p : InPath)
    (seg : Arg) (bytes : ℕ) :
    outArg (CliMain.convertCmd ff p fmt) =
      some (.path (p.par ++ [p.stem ++ "_converted." ++ fmt]))
  ∧ outArg (CliMain.extractCmd ff p) =
      some (.path (p.par ++ [p.stem ++ "_audio.mp3"]))
  ∧ outArg (CliMain.compressCmd ff p) =
      some (.path (p.par ++ [p.stem ++ "_compressed.mp4"]))
  ∧ outArg (CliMain.cutCmd ff p startT durT) =
      some (.path (p.par ++ [p.stem ++ "_cut.mp4"]))
  ∧ outArg (CliMain.repairCopyCmd ff p) =
      some (.path (p.par ++ [p.stem ++ "_fixed.mp4"]))
  ∧ outArg (CliMain.splitTimeCmd ff p seg) =
      some (.path (p.par ++ [p.stem ++ "_split", p.stem ++ "_part%03d.mp4"]))
  ∧ outArg (CliMain.splitSizeCmd ff p bytes) =
      some (.path (p.par ++ [p.stem ++ "_split", p.stem ++ "_part%03d.mp4"]))
  ∧ outArg (Gui.convertCmd ff p fmt) =
      some (.path (p.par ++ [p.stem ++ "_converted." ++ fmt]))
  ∧ outArg (Gui.extractCmd ff p) =
      some (.path (p.par ++ [p.stem ++ "_audio.mp3"]))
  ∧ outArg (SplitPy.splitCmd p startT) =
      some (.path (p.par ++ [p.stem ++ "_split", p.stem ++ "_part%03d.mp4"])) := by
  refine ⟨rfl, rfl, rfl, rfl, rfl, ?_, ?_, rfl, rfl, ?_⟩ <;>
    simp [outArg, CliMain.splitTimeCmd, CliMain.splitSizeCmd, SplitPy.splitCmd,
      splitPat, splitDir]

/-- C1: in the interactive split operation, splitting into N parts probes
the total duration, divides it by N, and passes exactly that value as the
segment-time argument; splitting by size M in megabytes passes exactly
M times 1024 times 1024 bytes as the segment-size argument; the entire
effect of the operation is the directory creation, the probe, and this one
launch. -/
theorem C1_split_computation (ff : String) (p : InPath) (n m : String)
    (envN envM : CliMain.SplitEnv)
    (hn : pyIsDigit n = true) (hn2 : 2 ≤ pyToNat n)
    (hprobe : envN.probeExit = 0) (hm : pyIsDigit m = true) :
    (CliMain.split_video ff p "3" n envN).effects =
      [.mkdir (splitDir p), .probe (CliMain.probeCmd ff p),
       .launch (CliMain.splitTimeCmd ff p
         (.num (envN.probeDur / (pyToNat n : ℚ))))]
  ∧ (CliMain.split_video ff p "2" m envM).effects =
      [.mkdir (splitDir p),
       .launch (CliMain.splitSizeCmd ff p (pyToNat m * 1024 * 1024))] := by
  have hne : n ≠ "" := by
    intro h
    rw [h] at hn
    simp [pyIsDigit] at hn
  have hme : m ≠ "" := by
    intro h
    rw [h] at hm
    simp [pyIsDigit] at hm
  constructor
  · rcases eq_or_ne envN.exitCode 0 with h0 | h0 <;>
      simp [CliMain.split_video, hne, hn, hprobe, h0, Nat.not_lt.2 hn2]
  · rcases eq_or_ne envM.exitCode 0 with h0 | h0 <;>
      simp [CliMain.split_video, hm, hme, h0]

/-- Witness for C1 with four parts of a 100-second input and 10 MB
segments. -/
theorem C1_split_computation_w :
    pyIsDigit "4" = true ∧ 2 ≤ pyToNat "4" ∧ pyIsDigit "10" = true ∧
    (CliMain.split_video "ffmpeg" ⟨["d"], "v", ".mov"⟩ "3" "4"
        ⟨0, "", 0, 100⟩).effects =
      [.mkdir (splitDir ⟨["d"], "v", ".mov"⟩),
       .probe (CliMain.probeCmd "ffmpeg" ⟨["d"], "v", ".mov"⟩),
       .launch (CliMain.splitTimeCmd "ffmpeg" ⟨["d"], "v", ".mov"⟩
         (.num ((100 : ℚ) / (pyToNat "4" : ℚ))))] ∧
    (CliMain.split_video "ffmpeg" ⟨["d"], "v", ".mov"⟩ "2" "10"
        ⟨0, "", 0, 100⟩).effects =
      [.mkdir (splitDir ⟨["d"], "v", ".mov"⟩),
       .launch (CliMain.splitSizeCmd "ffmpeg" ⟨["d"], "v", ".mov"⟩
         (pyToNat "10" * 1024 * 1024))] :=
  ⟨by decide, by decide, by decide,
   (C1_split_computation "ffmpeg" ⟨["d"], "v", ".mov"⟩ "4" "10"
     ⟨0, "", 0, 100⟩ ⟨0, "", 0, 100⟩ (by decide) (by decide) rfl (by decide)).1,
   (C1_split_computation "ffmpeg" ⟨["d"], "v", ".mov"⟩ "4" "10"
     ⟨0, "", 0, 100⟩ ⟨0, "", 0, 100⟩ (by decide) (by decide) rfl (by decide)).2⟩

/-- C9: the interactive split operation creates the stem_split output
directory before validating the method choice and its parameter, so every
invalid choice or invalid parameter yields a failure result with no tool
launch while the directory-creation effect has already happened. -/
theorem C9_split_dir_before_validation (ff : String) (p : InPath)
    (choice param : String) (env : CliMain.SplitEnv) :
    (CliMain.split_video ff p choice param env).effects.head? =
      some (.mkdir (splitDir p))
  ∧ (¬ (choice = "1" ∨ choice = "2" ∨ choice = "3") →
      CliMain.split_video ff p choice param env =
        ⟨false, [.mkdir (splitDir p)], []⟩)
  ∧ (choice = "1" → param = "" →
      CliMain.split_video ff p choice param env =
        ⟨false, [.mkdir (splitDir p)], []⟩)
  ∧ (choice = "2" → ¬ pyIsDigit param = true →
      CliMain.split_video ff p choice param env =
        ⟨false, [.mkdir (splitDir p)], []⟩)
  ∧ (choice = "3" → (¬ pyIsDigit param = true ∨ pyToNat param < 2) →
      CliMain.split_video ff p choice param env =
        ⟨false, [.mkdir (splitDir p)], []⟩) := by
  refine ⟨?_, fun h => ?_, fun h hp => ?_, fun h hp => ?_, fun h hp => ?_⟩
  · unfold CliMain.split_video
    repeat' split <;> try rfl
  · push_neg at h
    simp [CliMain.split_video, h.1, h.2.1, h.2.2]
  · subst h
    simp [CliMain.split_video, hp]
  · subst h
    simp [CliMain.split_video, hp]
  · subst h
    rcases hp with hp | hp <;> simp [CliMain.split_video, hp]

/-- Witness for C9 at the invalid method choice 9 and at a non-digit size
parameter for method choice 2. -/
theorem C9_split_dir_before_validation_w :
    (CliMain.split_video "ffmpeg" ⟨["d"], "v", ".mov"⟩ "9" "x"
        ⟨0, "", 0, 0⟩).effects.head? =
      some (.mkdir (splitDir ⟨["d"], "v", ".mov"⟩))
  ∧ CliMain.split_video "ffmpeg" ⟨["d"], "v", ".mov"⟩ "9" "x" ⟨0, "", 0, 0⟩ =
      ⟨false, [.mkdir (splitDir ⟨["d"], "v", ".mov"⟩)], []⟩
  ∧ CliMain.split_video "ffmpeg" ⟨["d"], "v", ".mov"⟩ "2" "ten" ⟨0, "", 0, 0⟩ =
      ⟨false, [.mkdir (splitDir ⟨["d"], "v", ".mov"⟩)], []⟩ :=
  ⟨(C9_split_dir_before_validation "ffmpeg" ⟨["d"], "v", ".mov"⟩ "9" "x"
      ⟨0, "", 0, 0⟩).1,
   (C9_split_dir_before_validation "ffmpeg" ⟨["d"], "v", ".mov"⟩ "9" "x"
      ⟨0, "", 0, 0⟩).2.1 (by decide),
   (C9_split_dir_before_validation "ffmpeg" ⟨["d"], "v", ".mov"⟩ "2" "ten"
      ⟨0, "", 0, 0⟩).2.2.2.1 rfl (by decide)⟩

/-- C4: the only recovery behavior is the single repair fallback: the
repair operation launches the re-encoding command (video re-encoded with
libx264, audio with aac, same output path) exactly when the stream-copy
attempt exits non-zero, and every other operation launches the media tool
at most once. -/
theorem C4_single_repair_fallback (ff fmt startT durT choice param i o v a
      bitrate : String) (p : InPath) (renv : CliMain.RepairEnv) (env : Env)
    (senv : CliMain.SplitEnv) (ffOn : Option String) (inEx fa fs copy : Bool)
    (cmd : Cmd) (t : ℤ) (c : Int) :
    launches (CliMain.fix_broken_video ff p renv).effects =
      (if renv.exit1 = 0 then [CliMain.repairCopyCmd ff p]
       else [CliMain.repairCopyCmd ff p, CliMain.repairReencodeCmd ff p])
  ∧ Arg.lit "-c:v" ∈ CliMain.repairReencodeCmd ff p
  ∧ Arg.lit "libx264" ∈ CliMain.repairReencodeCmd ff p
  ∧ Arg.lit "-c:a" ∈ CliMain.repairReencodeCmd ff p
  ∧ Arg.lit "aac" ∈ CliMain.repairReencodeCmd ff p
  ∧ outArg (CliMain.repairReencodeCmd ff p) = some (.path (fixedOut p))
  ∧ outArg (CliMain.repairCopyCmd ff p) = some (.path (fixedOut p))
  ∧ (launches (CliMain.convert_file ff p fmt env).effects).length ≤ 1
  ∧ (launches (CliMain.extract_audio ff p env).effects).length ≤ 1
  ∧ (launches (CliMain.compress_video ff p env).effects).length ≤ 1
  ∧ (launches (CliMain.cut_video ff p startT durT env).effects).length ≤ 1
  ∧ (launches (CliMain.split_video ff p choice param senv).effects).length ≤ 1
  ∧ (launches (SplitPy.split_video_by_time p param env).effects).length ≤ 1
  ∧ (launches (Gui.run_ffmpeg_command fa fs cmd env).effects).length ≤ 1
  ∧ (Mini.convert ffOn inEx i o v a c).effects.length ≤ 1
  ∧ (Mini.trim ffOn inEx i o startT durT copy c).effects.length ≤ 1
  ∧ (Mini.extract_audio ffOn inEx i o bitrate c).effects.length ≤ 1
  ∧ (Mini.split_video ffOn inEx i o t c).effects.length ≤ 1 := by
  refine ⟨?_, ?_, ?_, ?_, ?_, rfl, rfl, ?_, ?_, ?_, ?_, ?_, ?_, ?_, ?_, ?_, ?_, ?_⟩
  · unfold CliMain.fix_broken_video CliMain.try_alternative_repair
    repeat' split <;> simp_all [launches]
  · simp [CliMain.repairReencodeCmd]
  · simp [CliMain.repairReencodeCmd]
  · simp [CliMain.repairReencodeCmd]
  · simp [CliMain.repairReencodeCmd]
  · unfold CliMain.convert_file
    repeat' split
    all_goals simp [launches]
  · unfold CliMain.extract_audio
    repeat' split
    all_goals simp [launches]
  · unfold CliMain.compress_video
    repeat' split
    all_goals simp [launches]
  · unfold CliMain.cut_video
    repeat' split
    all_goals simp [launches]
  · unfold CliMain.split_video
    repeat' split
    all_goals simp [launches]
  · unfold SplitPy.split_video_by_time
    repeat' split
    all_goals simp [launches]
  · unfold Gui.run_ffmpeg_command
    repeat' split
    all_goals simp [launches]
  · unfold Mini.convert Mini.runStep
    repeat' split
    all_goals simp
  · unfold Mini.trim Mini.runStep
    repeat' split
    all_goals simp
  · unfold Mini.extract_audio Mini.runStep
    repeat' split
    all_goals simp
  · unfold Mini.split_video Mini.runStep
    repeat' split
    all_goals simp

lemma stem_append_ne (p : InPath) {a b : String} (h : a.data ≠ b.data) :
    p.par ++ [p.stem ++ a] ≠ p.par ++ [p.stem ++ b] := by
  intro hc
  apply h
  have hs : p.stem ++ a = p.stem ++ b := by
    simpa using List.append_cancel_left hc
  have hd := congrArg String.data hs
  rw [String.data_append, String.data_append] at hd
  exact List.append_cancel_left hd

lemma underscore_ne_sfx {a b : String} (ha : a.data.head? = some '_')
    (hb : pySuffixOk b = true) : a.data ≠ b.data := by
  intro hc
  rw [pySuffixOk, Bool.or_eq_true] at hb
  rcases hb with hb | hb
  · rw [List.isEmpty_iff] at hb
    rw [hc, hb] at ha
    exact Option.noConfusion ha
  · rw [beq_iff_eq] at hb
    rw [hc, hb] at ha
    exact absurd (Option.some.inj ha) (by decide)

/-- C10: every operation writes to a path distinct from the selected input
path: each output name appends a nonempty underscore suffix to the stem,
and the split outputs live in a separate sibling directory, so no
operation targets the input file itself. -/
theorem C10_outputs_distinct_from_input (p : InPath) (fmt : String)
    (h : pySuffixOk p.suffix = true) :
    convertedOut p fmt ≠ inputPathOf p
  ∧ audioOut p ≠ inputPathOf p
  ∧ compressedOut p ≠ inputPathOf p
  ∧ cutOut p ≠ inputPathOf p
  ∧ fixedOut p ≠ inputPathOf p
  ∧ splitDir p ≠ inputPathOf p
  ∧ splitPat p ≠ inputPathOf p := by
  have hassoc : ∀ s t : String, p.stem ++ s ++ t = p.stem ++ (s ++ t) :=
    fun s t => String.append_assoc ..
  refine ⟨?_, ?_, ?_, ?_, ?_, ?_, ?_⟩
  · show p.par ++ [p.stem ++ "_converted." ++ fmt] ≠ _
    rw [hassoc]
    exact stem_append_ne p (underscore_ne_sfx rfl h)
  · exact stem_append_ne p (underscore_ne_sfx rfl h)
  · exact stem_append_ne p (underscore_ne_sfx rfl h)
  · exact stem_append_ne p (underscore_ne_sfx rfl h)
  · exact stem_append_ne p (underscore_ne_sfx rfl h)
  · exact stem_append_ne p (underscore_ne_sfx rfl h)
  · intro hc
    have hl := congrArg List.length hc
    simp [splitPat, splitDir, inputPathOf] at hl

/-- Witness for C10 at a concrete mov input file. -/
theorem C10_outputs_distinct_from_input_w :
    pySuffixOk ".mov" = true ∧
    convertedOut ⟨["d"], "v", ".mov"⟩ "mp4" ≠ inputPathOf ⟨["d"], "v", ".mov"⟩ ∧
    splitPat ⟨["d"], "v", ".mov"⟩ ≠ inputPathOf ⟨["d"], "v", ".mov"⟩ :=
  ⟨by decide,
   (C10_outputs_distinct_from_input ⟨["d"], "v", ".mov"⟩ "mp4" (by decide)).1,
   (C10_outputs_distinct_from_input ⟨["d"], "v", ".mov"⟩ "mp4" (by decide)).2.2.2.2.2.2⟩

/-- C6: the session selection is set only to paths that exist at the
moment they are supplied: the initial load (argument or prompt) yields a
selection only from an existing path, a menu-9 load of a nonexistent path
leaves the selection unchanged, any new selection comes from a load whose
path existed at that moment, the selection is never destroyed by later
loop iterations, and the GUI file loader behaves the same way. -/
theorem C6_selection_lifecycle :
    (∀ argv1 aEx entry pEx q,
        Session.initialLoad argv1 aEx entry pEx = some q →
          (argv1 = some q ∧ aEx = true) ∨
          (q = Session.cleanPrompt entry ∧ pEx = true))
  ∧ (∀ cur entry, Session.step cur (.selectNew entry false) = cur)
  ∧ (∀ cur ev q, Session.step cur ev = some q →
        cur = some q ∨
        ∃ entry, ev = .selectNew entry true ∧ q = Session.cleanSelect entry)
  ∧ (∀ q evs, Session.runEvents (some q) evs ≠ none)
  ∧ (∀ cur cp, Gui.load_file cur cp false = cur ∧
        Gui.load_file cur cp true = some cp) := by
  refine ⟨?_, ?_, ?_, ?_, ?_⟩
  · have hprompt : ∀ entry pEx q,
        Session.promptPhase entry pEx = some q →
          q = Session.cleanPrompt entry ∧ pEx = true := by
      intro entry pEx q hq
      unfold Session.promptPhase at hq
      by_cases h1 : Session.cleanPrompt entry = ""
      · rw [if_pos h1] at hq
        exact absurd hq (by simp)
      · rw [if_neg h1] at hq
        cases pEx with
        | false => exact absurd hq (by simp)
        | true => exact ⟨(Option.some.inj (by simpa using hq)).symm, rfl⟩
    intro argv1 aEx entry pEx q hq
    cases argv1 with
    | none => exact Or.inr (hprompt entry pEx q hq)
    | some a =>
      unfold Session.initialLoad at hq
      split_ifs at hq with h1
      · exact Or.inl ⟨congrArg some (Option.some.inj hq), h1⟩
      · exact Or.inr (hprompt entry pEx q hq)
  · intro cur entry
    rfl
  · intro cur ev q hq
    cases ev with
    | op choice => exact Or.inl hq
    | selectNew entry ex =>
      cases ex with
      | false => exact Or.inl hq
      | true => exact Or.inr ⟨entry, rfl, (Option.some.inj hq).symm⟩
  · exact fun q evs => runEvents_some evs q
  · exact fun cur cp => ⟨rfl, rfl⟩

/-- Witness for C6: a prompt load of an existing path, a failed menu-9
load, and a two-iteration run. -/
theorem C6_selection_lifecycle_w :
    Session.initialLoad none false "a.mov" true = some "a.mov" ∧
    ((none = some "a.mov" ∧ false = true) ∨
      ("a.mov" = Session.cleanPrompt "a.mov" ∧ true = true)) ∧
    Session.step (some "x.mov") (.selectNew "b.mov" false) = some "x.mov" ∧
    Session.runEvents (some "x.mov") [.op "2", .selectNew "c.mov" true] ≠ none :=
  ⟨by decide, C6_selection_lifecycle.1 none false "a.mov" true "a.mov" (by decide),
   C6_selection_lifecycle.2.1 (some "x.mov") "b.mov",
   C6_selection_lifecycle.2.2.2.1 "x.mov" [.op "2", .selectNew "c.mov" true]⟩

/-- C2 counterexample: with a zero exit code but a missing output file the
CLI convert wrapper reports failure, and with a non-zero first exit code
the repair wrapper does not abandon the operation but reaches a success
report through its fallback; so a zero exit does not always yield a
success report and a non-zero exit does not always abandon the
operation. -/
theorem C2_exit_code_counterexample :
    (CliMain.convert_file "ffmpeg" ⟨["d"], "v", ".mov"⟩ "mp4"
        ⟨0, "", false⟩).ok = false
  ∧ (CliMain.fix_broken_video "ffmpeg" ⟨["d"], "v", ".mov"⟩
        ⟨1, "moov atom not found", false, 0, "", true⟩).ok = true := by
  exact ⟨rfl, rfl⟩

/-- C2 amended: each wrapper branches on the exit code, and the CLI
convert and compress wrappers additionally require the output file to
exist on the zero-exit path; on non-zero exit the CLI wrappers, the GUI
runner, and the standalone split script report failure and show a
truncated slice of the error text, while the repair wrapper instead
proceeds to its single re-encoding fallback and the mini front end
terminates the program with the child's code. -/
theorem C2_failure_reporting_amended (ff fmt segT : String) (p : InPath)
    (env : Env) (renv : CliMain.RepairEnv) (cmd : Cmd) (c : Int) :
    ((CliMain.convert_file ff p fmt env).ok = true ↔
        env.exitCode = 0 ∧ env.outExists = true)
  ∧ (env.exitCode ≠ 0 → env.errText ≠ "" →
        (CliMain.convert_file ff p fmt env).shown = [pyTail env.errText 500])
  ∧ ((CliMain.compress_video ff p env).ok = true ↔
        env.exitCode = 0 ∧ env.outExists = true)
  ∧ (env.exitCode ≠ 0 →
        (CliMain.compress_video ff p env).shown = [pyTake env.errText 500])
  ∧ (∀ fa fs, (Gui.run_ffmpeg_command fa fs cmd env).ok = true ↔
        fa = true ∧ fs = true ∧ env.exitCode = 0)
  ∧ (env.exitCode ≠ 0 → env.errText ≠ "" →
        (Gui.run_ffmpeg_command true true cmd env).shown =
          [pyTake env.errText 500])
  ∧ (env.exitCode ≠ 0 →
        (SplitPy.split_video_by_time p segT env).ok = false ∧
        (SplitPy.split_video_by_time p segT env).shown =
          [pyTake env.errText 200])
  ∧ (renv.exit1 ≠ 0 →
        launches (CliMain.fix_broken_video ff p renv).effects =
          [CliMain.repairCopyCmd ff p, CliMain.repairReencodeCmd ff p])
  ∧ (c ≠ 0 → Mini.run_ffmpeg c = .exitWith c) := by
  refine ⟨?_, ?_, ?_, ?_, ?_, ?_, ?_, ?_, ?_⟩
  · unfold CliMain.convert_file
    split_ifs with h0 h1 <;> simp_all
  · intro h0 h1
    simp [CliMain.convert_file, h0, h1]
  · unfold CliMain.compress_video
    split_ifs with h0 h1 <;> simp_all
  · intro h0
    simp [CliMain.compress_video, h0]
  · intro fa fs
    unfold Gui.run_ffmpeg_command
    split_ifs with h1 h2 h3 <;> simp_all
  · intro h0 h1
    simp [Gui.run_ffmpeg_command, h0, h1]
  · intro h0
    simp [SplitPy.split_video_by_time, h0]
  · intro h
    unfold CliMain.fix_broken_video CliMain.try_alternative_repair
    rw [if_neg h]
    split_ifs <;> simp [launches]
  · intro h
    simp [Mini.run_ffmpeg, h]

/-- Witness for the amended C2 at a failing run with nonempty error
text. -/
theorem C2_failure_reporting_amended_w :
    ((CliMain.convert_file "ffmpeg" ⟨["d"], "v", ".mov"⟩ "mp4"
        ⟨1, "bad data", false⟩).ok = true ↔
      (1 : Int) = 0 ∧ false = true)
  ∧ (CliMain.convert_file "ffmpeg" ⟨["d"], "v", ".mov"⟩ "mp4"
        ⟨1, "bad data", false⟩).shown = [pyTail "bad data" 500]
  ∧ launches (CliMain.fix_broken_video "ffmpeg" ⟨["d"], "v", ".mov"⟩
        ⟨1, "bad data", false, 1, "also bad", false⟩).effects =
      [CliMain.repairCopyCmd "ffmpeg" ⟨["d"], "v", ".mov"⟩,
       CliMain.repairReencodeCmd "ffmpeg" ⟨["d"], "v", ".mov"⟩]
  ∧ Mini.run_ffmpeg 2 = .exitWith 2 :=
  ⟨(C2_failure_reporting_amended "ffmpeg" "mp4" "60" ⟨["d"], "v", ".mov"⟩
      ⟨1, "bad data", false⟩ ⟨1, "bad data", false, 1, "also bad", false⟩
      [] 2).1,
   (C2_failure_reporting_amended "ffmpeg" "mp4" "60" ⟨["d"], "v", ".mov"⟩
      ⟨1, "bad data", false⟩ ⟨1, "bad data", false, 1, "also bad", false⟩
      [] 2).2.1 (by decide) (by decide),
   (C2_failure_reporting_amended "ffmpeg" "mp4" "60" ⟨["d"], "v", ".mov"⟩
      ⟨1, "bad data", false⟩ ⟨1, "bad data", false, 1, "also bad", false⟩
      [] 2).2.2.2.2.2.2.2.1 (by decide),
   (C2_failure_reporting_amended "ffmpeg" "mp4" "60" ⟨["d"], "v", ".mov"⟩
      ⟨1, "bad data", false⟩ ⟨1, "bad data", false, 1, "also bad", false⟩
      [] 2).2.2.2.2.2.2.2.2 (by decide)⟩

/-- C3 counterexample: the interactive split command carries no overwrite
flag, and the plain convert command carries no codec or filter flag (its
only literal flags are the input marker, the overwrite flag, and the
progress options), so not every argument vector includes the overwrite
flag together with codec or filter flags. -/
theorem C3_overwrite_flag_counterexample :
    Arg.lit "-y" ∉ CliMain.splitTimeCmd "ffmpeg" ⟨["d"], "v", ".mov"⟩ (.lit "60")
  ∧ Arg.lit "-vcodec" ∉ CliMain.convertCmd "ffmpeg" ⟨["d"], "v", ".mov"⟩ "mp4"
  ∧ Arg.lit "-acodec" ∉ CliMain.convertCmd "ffmpeg" ⟨["d"], "v", ".mov"⟩ "mp4"
  ∧ Arg.lit "-c:v" ∉ CliMain.convertCmd "ffmpeg" ⟨["d"], "v", ".mov"⟩ "mp4"
  ∧ Arg.lit "-c:a" ∉ CliMain.convertCmd "ffmpeg" ⟨["d"], "v", ".mov"⟩ "mp4"
  ∧ Arg.lit "-c" ∉ CliMain.convertCmd "ffmpeg" ⟨["d"], "v", ".mov"⟩ "mp4"
  ∧ Arg.lit "-vf" ∉ CliMain.convertCmd "ffmpeg" ⟨["d"], "v", ".mov"⟩ "mp4" := by
  refine ⟨?_, ?_, ?_, ?_, ?_, ?_, ?_⟩ <;> decide

/-- C3 amended: every embedded argument vector includes the input path and
the output path, and the overwrite flag is included in every operation
except the split commands of the CLI app, the GUI apps, and the
standalone split script, which omit it (their outputs go to a fresh
sibling directory); plain convert passes no codec or filter flags. -/
theorem C3_overwrite_flag_amended (ff fmt startT durT i o v a bitrate
      segT : String) (p : InPath) (seg : Arg) (bytes : ℕ) (t : ℤ)
    (copy : Bool) (hseg : seg ≠ .lit "-y") (hsegT : segT ≠ "-y") :
    (Arg.lit "-y" ∈ CliMain.convertCmd ff p fmt
      ∧ Arg.path (inputPathOf p) ∈ CliMain.convertCmd ff p fmt
      ∧ Arg.path (convertedOut p fmt) ∈ CliMain.convertCmd ff p fmt)
  ∧ Arg.lit "-y" ∈ CliMain.extractCmd ff p
  ∧ Arg.lit "-y" ∈ CliMain.compressCmd ff p
  ∧ Arg.lit "-y" ∈ CliMain.cutCmd ff p startT durT
  ∧ Arg.lit "-y" ∈ CliMain.repairCopyCmd ff p
  ∧ Arg.lit "-y" ∈ CliMain.repairReencodeCmd ff p
  ∧ Arg.lit "-y" ∈ Mini.convertCmd ff i o v a
  ∧ Arg.lit "-y" ∈ Mini.trimCmd ff i o startT durT copy
  ∧ Arg.lit "-y" ∈ Mini.extractCmd ff i o bitrate
  ∧ Arg.lit "-y" ∈ Mini.splitCmd ff i o t
  ∧ Arg.lit "-y" ∈ Gui.convertCmd ff p fmt
  ∧ Arg.lit "-y" ∈ Gui.extractCmd ff p
  ∧ Arg.lit "-y" ∈ Gui.compressCmd ff p
  ∧ Arg.lit "-y" ∈ Gui.cutCmd ff p startT durT
  ∧ (Arg.lit "-y" ∉ CliMain.splitTimeCmd "ffmpeg" p seg
      ∧ Arg.path (inputPathOf p) ∈ CliMain.splitTimeCmd "ffmpeg" p seg
      ∧ Arg.path (splitPat p) ∈ CliMain.splitTimeCmd "ffmpeg" p seg)
  ∧ Arg.lit "-y" ∉ CliMain.splitSizeCmd "ffmpeg" p bytes
  ∧ Arg.lit "-y" ∉ Gui.splitTimeCmd "ffmpeg" p seg
  ∧ Arg.lit "-y" ∉ Gui.splitSizeCmd "ffmpeg" p bytes
  ∧ Arg.lit "-y" ∉ SplitPy.splitCmd p segT := by
  refine ⟨⟨?_, ?_, ?_⟩, ?_, ?_, ?_, ?_, ?_, ?_, ?_, ?_, ?_, ?_, ?_, ?_, ?_,
    ⟨?_, ?_, ?_⟩, ?_, ?_, ?_, ?_⟩ <;>
    simp [CliMain.convertCmd, CliMain.extractCmd, CliMain.compressCmd,
      CliMain.cutCmd, CliMain.repairCopyCmd, CliMain.repairReencodeCmd,
      Mini.convertCmd, Mini.trimCmd, Mini.extractCmd, Mini.splitCmd,
      Gui.convertCmd, Gui.extractCmd, Gui.compressCmd, Gui.cutCmd,
      CliMain.splitTimeCmd, CliMain.splitSizeCmd, Gui.splitTimeCmd,
      Gui.splitSizeCmd, SplitPy.splitCmd, hseg.symm, hsegT.symm]

/-- Witness for the amended C3 at a concrete sixty-second segment time. -/
theorem C3_overwrite_flag_amended_w :
    Arg.lit "-y" ∈ CliMain.convertCmd "ffmpeg" ⟨["d"], "v", ".mov"⟩ "mp4" ∧
    Arg.lit "-y" ∉
      CliMain.splitTimeCmd "ffmpeg" ⟨["d"], "v", ".mov"⟩ (.num 60) ∧
    Arg.lit "-y" ∉ SplitPy.splitCmd ⟨["d"], "v", ".mov"⟩ "60" :=
  ⟨(C3_overwrite_flag_amended "ffmpeg" "mp4" "0" "10" "i" "o" "v" "a" "192k"
      "60" ⟨["d"], "v", ".mov"⟩ (.num 60) 1 1 false (by decide)
      (by decide)).1.1,
   (C3_overwrite_flag_amended "ffmpeg" "mp4" "0" "10" "i" "o" "v" "a" "192k"
      "60" ⟨["d"], "v", ".mov"⟩ (.num 60) 1 1 false (by decide)
      (by decide)).2.2.2.2.2.2.2.2.2.2.2.2.2.2.1.1,
   (C3_overwrite_flag_amended "ffmpeg" "mp4" "0" "10" "i" "o" "v" "a" "192k"
      "60" ⟨["d"], "v", ".mov"⟩ (.num 60) 1 1 false (by decide)
      (by decide)).2.2.2.2.2.2.2.2.2.2.2.2.2.2.2.2.2.2⟩

/-- C8 counterexample: with the tool on PATH and a nonexistent input file,
the mini front end convert operation still launches the external tool:
the missing input is not detected before the launch and the operation is
attempted anyway. -/
theorem C8_missing_input_counterexample :
    (Mini.convert (some "ffmpeg") false "missing.mov" "out.mp4" "copy"
        "copy" 0).effects =
      [.launch (Mini.convertCmd "ffmpeg" "missing.mov" "out.mp4" "copy"
        "copy")] := rfl

/-- C8 amended: a missing external tool and invalid user parameters are
detected before any launch and the operation is not performed, and a
missing input file is rejected at selection time; but the per-operation
commands never check input existence, launching the tool regardless of
whether the input file exists. -/
theorem C8_prelaunch_checks_amended (ff i o v a bitrate startT durT param
      entry : String) (p : InPath) (inEx copy : Bool) (t : ℤ) (c : Int)
    (env : Env) (senv : CliMain.SplitEnv) :
    Mini.convert none inEx i o v a c = ⟨[], some 1⟩
  ∧ Mini.trim none inEx i o startT durT copy c = ⟨[], some 1⟩
  ∧ Mini.extract_audio none inEx i o bitrate c = ⟨[], some 1⟩
  ∧ Mini.split_video none inEx i o t c = ⟨[], some 1⟩
  ∧ (startT = "" ∨ durT = "" →
        CliMain.cut_video ff p startT durT env = ⟨false, [], []⟩)
  ∧ (¬ pyIsDigit param = true →
        (CliMain.split_video ff p "2" param senv).ok = false ∧
        launches (CliMain.split_video ff p "2" param senv).effects = [])
  ∧ (¬ pyIsDigit param = true ∨ pyToNat param < 2 →
        (CliMain.split_video ff p "3" param senv).ok = false ∧
        launches (CliMain.split_video ff p "3" param senv).effects = [])
  ∧ Session.promptPhase entry false = none
  ∧ (Mini.convert (some ff) inEx i o v a c).effects =
      [.launch (Mini.convertCmd ff i o v a)] := by
  refine ⟨rfl, rfl, rfl, rfl, ?_, ?_, ?_, ?_, ?_⟩
  · intro h
    simp [CliMain.cut_video, h]
  · intro h
    constructor <;> simp [CliMain.split_video, h, launches]
  · intro h
    rcases h with h | h <;> constructor <;>
      simp [CliMain.split_video, h, launches]
  · simp [Session.promptPhase]
  · unfold Mini.convert Mini.runStep
    cases hM : Mini.run_ffmpeg c <;> rfl

/-- Witness for the amended C8 at an empty trim time and a non-digit part
count. -/
theorem C8_prelaunch_checks_amended_w :
    CliMain.cut_video "ffmpeg" ⟨["d"], "v", ".mov"⟩ "" "10" ⟨0, "", true⟩ =
      ⟨false, [], []⟩
  ∧ (CliMain.split_video "ffmpeg" ⟨["d"], "v", ".mov"⟩ "3" "one"
        ⟨0, "", 0, 0⟩).ok = false
  ∧ launches (CliMain.split_video "ffmpeg" ⟨["d"], "v", ".mov"⟩ "3" "one"
        ⟨0, "", 0, 0⟩).effects = [] :=
  ⟨(C8_prelaunch_checks_amended "ffmpeg" "i" "o" "v" "a" "192k" "" "10"
      "one" "e" ⟨["d"], "v", ".mov"⟩ false false 1 0 ⟨0, "", true⟩
      ⟨0, "", 0, 0⟩).2.2.2.2.1 (Or.inl rfl),
   ((C8_prelaunch_checks_amended "ffmpeg" "i" "o" "v" "a" "192k" "" "10"
      "one" "e" ⟨["d"], "v", ".mov"⟩ false false 1 0 ⟨0, "", true⟩
      ⟨0, "", 0, 0⟩).2.2.2.2.2.2.1 (Or.inl (by decide))).1,
   ((C8_prelaunch_checks_amended "ffmpeg" "i" "o" "v" "a" "192k" "" "10"
      "one" "e" ⟨["d"], "v", ".mov"⟩ false false 1 0 ⟨0, "", true⟩
      ⟨0, "", 0, 0⟩).2.2.2.2.2.2.1 (Or.inl (by decide))).2⟩

end MiniVideo
